import Mathlib

/-!
Verification of the StockInfoDownloader harvesting core against its
natural-language specification.

The development shallowly embeds the Python source of
`cninfo_activity_downloader.py` and `get_stock_name.py`:

* pure string helpers (`clean_filename`, Python `str.strip` / `str.isdigit` /
  substring tests) become Lean functions on `String` / `List Char`;
* the filesystem and the remote browser session are external environments,
  modelled as explicit data (directory listings, per-page oracles) that the
  embedded control flow consumes;
* each loop of the source becomes a structurally recursive function over the
  finite trace of environment observations describing one run.

Definitions come first, then helper lemmas, then one theorem per claim.
-/

namespace StockInfo

/-! ## Python string primitives used by the source -/

/-- Characters treated as whitespace by Python `str.strip` (the ASCII ones;
the inputs of this development contain no exotic Unicode whitespace). -/
def pyIsSpace (c : Char) : Bool :=
  c = ' ' || c = '\t' || c = '\n' || c = '\r' || c = Char.ofNat 11 || c = Char.ofNat 12

/-- Python `str.strip()`: drop whitespace from both ends. -/
def pyStrip (s : String) : String :=
  String.mk (((s.data.dropWhile pyIsSpace).reverse.dropWhile pyIsSpace).reverse)

/-- Python `str.isdigit` on a single character, modelled on the character
classes appearing in this development: the ASCII decimal digits, plus the
Unicode superscript digits U+00B9 / U+00B2 / U+00B3 which Python classifies
as digits (`isdigit() = True`) although they are not decimal digits
(`isdecimal() = False`).  Other code points used here (CJK text, ASCII
letters, whitespace) are not digits in Python, matching the default. -/
def pyCharIsDigit (c : Char) : Bool :=
  (decide ('0' ≤ c) && decide (c ≤ '9')) || c = '¹' || c = '²' || c = '³'

/-- An ASCII decimal digit: the claim-side notion of "decimal digit". -/
def isAsciiDigit (c : Char) : Bool :=
  decide ('0' ≤ c) && decide (c ≤ '9')

/-- Characters on which `pyCharIsDigit` and `pyIsSpace` agree exactly with
Python: all of ASCII plus the three superscript digits. -/
def modelledChar (c : Char) : Bool :=
  decide (c.toNat < 128) || c = '¹' || c = '²' || c = '³'

/-- Python `str.isdigit` on a whole string: nonempty and all characters
digits. -/
def pyIsDigitStr (s : String) : Bool :=
  !s.data.isEmpty && s.data.all pyCharIsDigit

/-- Substring test on character lists: some tail of `l` starts with `pat`.
This is Python's `pat in l` for strings. -/
def listContains (pat l : List Char) : Bool :=
  l.tails.any (fun t => pat.isPrefixOf t)

/-- Python `pat in s` substring containment on strings. -/
def strContains (pat s : String) : Bool :=
  listContains pat.data s.data

/-- Python `s.startswith(pat)`. -/
def startsWithStr (pat s : String) : Bool :=
  pat.data.isPrefixOf s.data

/-! ## `clean_filename` (cninfo_activity_downloader.py, lines 73-75)

`re.sub(r'[\\/:*?"<>|]', '_', filename)`: every character of the illegal
set is replaced by an underscore. -/

/-- The illegal filename characters of the regex character class. -/
def illegalChars : List Char :=
  ['\\', '/', ':', '*', '?', '"', '<', '>', '|']

/-- Replacement applied to one character by the regex substitution. -/
def cleanChar (c : Char) : Char :=
  if illegalChars.contains c then '_' else c

/-- `clean_filename`: replace every illegal character with an underscore. -/
def clean_filename (s : String) : String :=
  String.mk (s.data.map cleanChar)

/-- A string free of illegal filename characters. -/
def noIllegal (s : String) : Bool :=
  s.data.all (fun c => !illegalChars.contains c)

/-- `os.path.join` for the relative paths the source builds. -/
def joinPath (dir name : String) : String :=
  dir ++ "/" ++ name

/-- The save path derived for an item: entity directory joined with the
sanitized item text plus the fixed `.pdf` extension
(cninfo_activity_downloader.py, lines 466-467). -/
def save_path_of (stockDir text : String) : String :=
  joinPath stockDir (clean_filename text ++ ".pdf")

/-! ## `_find_download_links` (cninfo_activity_downloader.py, lines 444-486)

The scan of the rendered page.  An anchor element is modelled by its
stripped-to-be visible text and its `href` attribute (`None` when the
attribute is absent).  The filesystem is modelled by a map from path to the
size of the file at that path (`none` when no file exists). -/

/-- The fixed marker phrase identifying the document category. -/
def marker : String := "投资者关系活动记录表"

/-- The expected detail-page path fragment. -/
def detailPath : String := "/new/disclosure/detail"

/-- An anchor element of the rendered page: Selenium's `link.text` and
`link.get_attribute('href')`. -/
structure RawLink where
  text : String
  href : Option String
deriving DecidableEq

/-- The record appended to `detail_infos` for each qualifying link. -/
structure DetailInfo where
  href : String
  fileName : String
  savePath : String
deriving DecidableEq

/-- The completeness test applied to an existing output file:
`os.path.exists(p) and os.path.getsize(p) > 10 * 1024`. -/
def fileComplete (fileSize : String → Option Nat) (p : String) : Bool :=
  match fileSize p with
  | some sz => decide (10 * 1024 < sz)
  | none => false

/-- `_find_download_links`: keep links whose stripped text is nonempty and
contains the marker, whose href is present, nonempty and contains both the
detail-page path and `stockCode=<code>`, skipping those whose derived save
path already holds a complete file. -/
def find_download_links (links : List RawLink) (stockCode stockDir : String)
    (fileSize : String → Option Nat) : List DetailInfo :=
  match links with
  | [] => []
  | link :: rest =>
    let text := pyStrip link.text
    match link.href with
    | none => find_download_links rest stockCode stockDir fileSize
    | some href =>
      if (text != "") && strContains marker text && (href != "")
          && strContains detailPath href
          && strContains ("stockCode=" ++ stockCode) href then
        let fileName := clean_filename text ++ ".pdf"
        let savePath := joinPath stockDir fileName
        if fileComplete fileSize savePath then
          find_download_links rest stockCode stockDir fileSize
        else
          ⟨href, fileName, savePath⟩ :: find_download_links rest stockCode stockDir fileSize
      else
        find_download_links rest stockCode stockDir fileSize

/-- Claim-side qualification predicate: exactly the three conditions of the
spec (marker phrase in the visible text, detail-page path in the reference,
`stockCode=<code>` in the reference), with no extra nonemptiness tests. -/
def qualifies (stockCode : String) (link : RawLink) : Bool :=
  match link.href with
  | none => false
  | some href =>
      strContains marker (pyStrip link.text) && strContains detailPath href
        && strContains ("stockCode=" ++ stockCode) href

/-- The `DetailInfo` a qualifying link gives rise to. -/
def infoOf (stockDir : String) (link : RawLink) : DetailInfo :=
  ⟨link.href.getD "", clean_filename (pyStrip link.text) ++ ".pdf",
    save_path_of stockDir (pyStrip link.text)⟩

/-! ## `_wait_for_download` (cninfo_activity_downloader.py, lines 560-603)

The completion detector polls once per second.  Each poll observes the
download directory (a listing of file names with sizes, after the
`_cleanup_pdf_txt` sweep has been applied) and the target path (size of the
file there, if any).  The external world writes to the directory between
polls, so a run is described by the finite sequence of observations, one
per poll, up to the timeout. -/

/-- One filesystem observation of a poll: the listing of the download
directory and the size of the file at the target path, if present. -/
structure FsObs where
  dirFiles : List (String × Nat)
  targetSize : Option Nat

/-- Python `file.lower().endswith('.pdf')`. -/
def isPdfName (name : String) : Bool :=
  ".pdf".data.isSuffixOf name.toLower.data

/-- `_cleanup_pdf_txt` (lines 605-612): remove every file named `pdf.txt`
(case-insensitively) from the download directory, then restrict to files
absent from the pre-click snapshot (`after_files - before_files`). -/
def newFilesOf (before : List String) (obs : FsObs) : List (String × Nat) :=
  (obs.dirFiles.filter (fun f => f.1.toLower != "pdf.txt")).filter
    (fun f => !before.contains f.1)

/-- The body of the `for file in new_files` loop: a new `.pdf` file larger
than 10 * 1024 bytes is moved to the target path and the poll reports
success; a new `.pdf` file of at most 10 * 1024 bytes is deleted and the
scan continues; other files are ignored.  Returns the success flag and the
names deleted before the scan stopped. -/
def scanNewFiles : List (String × Nat) → Bool × List String
  | [] => (false, [])
  | (name, size) :: rest =>
    if isPdfName name then
      if 10 * 1024 < size then (true, [])
      else
        let r := scanNewFiles rest
        (r.1, name :: r.2)
    else scanNewFiles rest

/-- The trailing check of each poll: the target path already holds a file
larger than 10 * 1024 bytes. -/
def targetComplete (obs : FsObs) : Bool :=
  match obs.targetSize with
  | some sz => decide (10 * 1024 < sz)
  | none => false

/-- One poll of `_wait_for_download`: scan the new files, then fall back to
the target-path check. -/
def pollOnce (before : List String) (obs : FsObs) : Bool :=
  if (scanNewFiles (newFilesOf before obs)).1 then true
  else targetComplete obs

/-- The names deleted by one poll (the undersized new `.pdf` files the scan
removed). -/
def pollDeleted (before : List String) (obs : FsObs) : List String :=
  (scanNewFiles (newFilesOf before obs)).2

/-- `_wait_for_download`: poll once per observation until one poll reports
success; return `false` when the timeout elapses (the observation sequence
is exhausted) with no successful poll. -/
def wait_for_download (before : List String) : List FsObs → Bool
  | [] => false
  | obs :: rest =>
    if pollOnce before obs then true else wait_for_download before rest

/-- Claim-side predicate: the observation holds a new file with the expected
extension strictly larger than the integrity threshold. -/
def hasBigNewPdf (before : List String) (obs : FsObs) : Bool :=
  (newFilesOf before obs).any (fun f => isPdfName f.1 && decide (10 * 1024 < f.2))

/-! ## `get_stock_name` (get_stock_name.py)

The local mapping file and the Tencent quote endpoint are external: the
mapping file may be missing, unreadable (a `json.load` failure is swallowed
and the lookup falls through), or a table of entries, each with an optional
`name` field; the network either yields a response body, raises a
`requests.exceptions.RequestException`, or raises some other exception.
The embedding also records whether the mapping file and the network were
consulted on the taken path. -/

/-- State of the local mapping file. -/
inductive MappingFile where
  | missing
  | unreadable
  | table (entries : List (String × Option String))
deriving DecidableEq

/-- Outcome of the HTTP request to the quote endpoint. -/
inductive NetResult where
  | ok (body : String)
  | requestError (msg : String)
  | otherError (msg : String)
deriving DecidableEq

/-- The external environment of one `get_stock_name` call. -/
structure NameEnv where
  mapping : MappingFile
  net : NetResult
deriving DecidableEq

/-- Result of a `get_stock_name` call together with which external sources
the taken path consulted. -/
structure NameCall where
  result : String
  usedMapping : Bool
  usedNetwork : Bool
deriving DecidableEq

/-- `if code in mapping and 'name' in mapping[code]: return mapping[code]['name']`. -/
def mappingLookup : MappingFile → String → Option String
  | .missing, _ => none
  | .unreadable, _ => none
  | .table es, code =>
    match es.find? (fun e => e.1 == code) with
    | some (_, some name) => some name
    | _ => none

/-- The fixed validation error string of `get_stock_name`. -/
def errBadInput : String := "错误：请输入6位数字股票代码"

/-- `get_stock_name`: strip the input, validate it as six Python digits,
then consult the mapping file and, on a miss, the network.  The choice of
exchange magnifier (`sh` versus `sz`) only affects the request URL and is
absorbed into the environment's network outcome. -/
def get_stock_name (input : String) (env : NameEnv) : NameCall :=
  let code := pyStrip input
  if !(pyIsDigitStr code) || code.length != 6 then
    ⟨errBadInput, false, false⟩
  else
    let mapUsed : Bool := match env.mapping with
      | .missing => false
      | _ => true
    match mappingLookup env.mapping code with
    | some name => ⟨name, mapUsed, false⟩
    | none =>
      let res := match env.net with
        | .ok body =>
          let parts := body.splitOn "~"
          if decide (1 < parts.length) && ((parts.getD 1 "") != "") then
            parts.getD 1 ""
          else "错误：股票代码不存在"
        | .requestError msg => "网络请求失败：" ++ msg
        | .otherError msg => "发生错误：" ++ msg
      ⟨res, mapUsed, true⟩

/-- The validation predicate of `get_stock_name`:
`code.isdigit() and len(code) == 6`. -/
def validStockInput (code : String) : Bool :=
  pyIsDigitStr code && code.length == 6

/-- The fallback test of `download_activity_records` (lines 331-338):
`not stock_name or stock_name.startswith('错误') or stock_name.startswith('网络')`. -/
def nameFallbackCheck (name : String) : Bool :=
  (name == "") || startsWithStr "错误" name || startsWithStr "网络" name

/-- The per-entity output subdirectory component chosen by
`download_activity_records`: the resolved name, replaced by the raw code
when the fallback test fires, then sanitized. -/
def stock_dir_name (stockCode : String) (env : NameEnv) : String :=
  let name := (get_stock_name stockCode env).result
  let chosen := if nameFallbackCheck name then stockCode else name
  clean_filename chosen

/-! ## `_go_to_next_page` (cninfo_activity_downloader.py, lines 614-653)

The pager.  The rendered pagination controls are modelled by what each of
the three lookups observes: `nextBtn` is `some e` when the XPath for the
primary next button (which already filters out `@disabled` elements)
matches, with `e` the `is_enabled()` answer; `arrowBtn` likewise for the
arrow icon's non-disabled ancestor button; `quickNext` is `some (d, e)`
when the quick-next control is found, with its `is_displayed()` and
`is_enabled()` answers.  A failed lookup raises and is caught, falling
through to the next strategy. -/

/-- Observation of the pagination controls at one page. -/
structure PagerPage where
  nextBtn : Option Bool
  arrowBtn : Option Bool
  quickNext : Option (Bool × Bool)
deriving DecidableEq

/-- Strategy 1 is actionable: the primary next button is present (passing
the not-disabled XPath filter) and enabled. -/
def tryNextButton (p : PagerPage) : Bool :=
  match p.nextBtn with
  | some e => e
  | none => false

/-- Strategy 2 is actionable: the arrow icon with a non-disabled ancestor
button is present and the button is enabled. -/
def tryArrowButton (p : PagerPage) : Bool :=
  match p.arrowBtn with
  | some e => e
  | none => false

/-- Strategy 3 is actionable: the quick-next control is present, displayed
and enabled. -/
def tryQuickNext (p : PagerPage) : Bool :=
  match p.quickNext with
  | some (d, e) => d && e
  | none => false

/-- The three pagination strategies, in the fixed priority order of the
source. -/
inductive PagerStrategy where
  | nextButton
  | arrowButton
  | quickNext
deriving DecidableEq

/-- `_go_to_next_page` with the clicked control made explicit: the first
actionable strategy in priority order is clicked; `none` when no strategy
finds an actionable control. -/
def clickedControl (p : PagerPage) : Option PagerStrategy :=
  if tryNextButton p then some .nextButton
  else if tryArrowButton p then some .arrowButton
  else if tryQuickNext p then some .quickNext
  else none

/-- `_go_to_next_page`: try the three strategies in order; return `true` on
the first click, `false` when none is actionable. -/
def go_to_next_page (p : PagerPage) : Bool :=
  if tryNextButton p then true
  else if tryArrowButton p then true
  else if tryQuickNext p then true
  else false

/-- Claim-side list of the actionable strategies in priority order. -/
def actionableStrategies (p : PagerPage) : List PagerStrategy :=
  (if tryNextButton p then [PagerStrategy.nextButton] else [])
    ++ (if tryArrowButton p then [PagerStrategy.arrowButton] else [])
    ++ (if tryQuickNext p then [PagerStrategy.quickNext] else [])

/-! ## `_navigate_to_page` (cninfo_activity_downloader.py, lines 433-442)

The resynchronization replay after a forced restart.  The pager is an
oracle giving the result of the i-th `_go_to_next_page` call; the function
below counts how many calls the `for _ in range(target_page - 1)` loop
makes, breaking as soon as a call returns `False`. -/

/-- The replay loop: `fuel` remaining iterations, `calls` calls made so
far.  Each iteration makes one pager call; a `False` answer breaks the
loop. -/
def navLoop (advance : Nat → Bool) : Nat → Nat → Nat
  | 0, calls => calls
  | fuel + 1, calls =>
    if advance calls then navLoop advance fuel (calls + 1) else calls + 1

/-- Number of `_go_to_next_page` calls `_navigate_to_page` makes for a
given target page. -/
def navigate_to_page_calls (advance : Nat → Bool) (targetPage : Nat) : Nat :=
  navLoop advance (targetPage - 1) 0

/-! ## `_cleanup_chrome_processes` (cninfo_activity_downloader.py, lines 171-199)

The pre-acquire cleanup.  On Linux/macOS it runs `pkill -f chrome` and
`pkill -f chromedriver`, killing every process whose full command line
contains the pattern; on Windows it runs `taskkill /f /im chrome.exe` and
`taskkill /f /im chromedriver.exe`, killing every process with that image
name.  Either way the selection is purely name-based.  A process is
modelled by its command line and by whether this controller spawned it. -/

/-- A process on the machine, with provenance. -/
structure OsProc where
  cmdline : String
  spawnedByThisController : Bool
deriving DecidableEq

/-- The name-based match used by the cleanup (`pkill -f` pattern
containment; `chromedriver` also contains `chrome`, mirroring the two
invocations). -/
def matchesCleanupPattern (p : OsProc) : Bool :=
  strContains "chrome" p.cmdline || strContains "chromedriver" p.cmdline

/-- `_cleanup_chrome_processes`: the processes surviving the sweep. -/
def cleanup_chrome_processes (procs : List OsProc) : List OsProc :=
  procs.filter (fun p => !matchesCleanupPattern p)

/-! ## `_download_all_pages` (cninfo_activity_downloader.py, lines 349-431)

The per-entity harvest loop.  One loop iteration observes: the driver
health check, the outcomes of the restart and re-navigation that a failed
health check triggers, the located items of the page (each with the eventual
success of its bounded-retry download in `_download_page_files`), the
outcomes of the budget-triggered restart and re-navigation, and the pager's
answer.  A run is described by the finite list of such observations; the
list ends at (or after) the iteration on which the loop breaks.  The page
counter only feeds logging and the replay depth of `_navigate_to_page`,
which is modelled separately, so it is not carried here. -/

/-- Environment observed by one iteration of the harvest loop. -/
structure PageEnv where
  healthy : Bool
  restartOk : Bool
  renavOk : Bool
  items : List Bool
  budgetRestartOk : Bool
  budgetRenavOk : Bool
  hasNext : Bool
deriving DecidableEq

/-- Externally visible events of a harvest run: one `download` per
completed download (the increment of `self.download_count`), one
`healthRestart` per restart triggered by a failed health check, one
`budgetRestart` per restart triggered by the session download budget. -/
inductive Ev where
  | download
  | healthRestart
  | budgetRestart
deriving DecidableEq

/-- Why the loop ended. -/
inductive ExitReason where
  | restartFailed
  | renavFailed
  | noMorePages
  | traceEnd
deriving DecidableEq

/-- The observable outcome of a harvest run: the value of
`total_downloaded`, the returned boolean, the emitted events, and why the
loop ended. -/
structure RunOut where
  total : Nat
  success : Bool
  events : List Ev
  reason : ExitReason
deriving DecidableEq

/-- Prefix the event trace of a run outcome with the events of an earlier
iteration. -/
def RunOut.prepend (evs : List Ev) (r : RunOut) : RunOut :=
  ⟨r.total, r.success, evs ++ r.events, r.reason⟩

/-- `_download_all_pages`, driven by the observation trace.  `dc` is
`self.download_count` on entry to the iteration, `total` is
`total_downloaded`.  Every exit path returns `total_downloaded > 0`, the
budget check `self.download_count >= self.max_downloads_per_session`
(threshold 5) runs once per iteration after the page's downloads, and a
successful budget restart plus re-navigation resets the counter to zero
before the pager is consulted. -/
def download_all_pages : List PageEnv → Nat → Nat → RunOut
  | [], _, total => ⟨total, decide (0 < total), [], .traceEnd⟩
  | e :: rest, dc, total =>
    if !e.healthy && !e.restartOk then
      ⟨total, decide (0 < total), [], .restartFailed⟩
    else if !e.healthy && !e.renavOk then
      ⟨total, decide (0 < total), [.healthRestart], .renavFailed⟩
    else
      let pre : List Ev := if e.healthy then [] else [.healthRestart]
      let k := e.items.count true
      let total' := total + k
      let dls := pre ++ List.replicate k Ev.download
      if 5 ≤ dc + k then
        if !e.budgetRestartOk then
          ⟨total', decide (0 < total'), dls, .restartFailed⟩
        else if !e.budgetRenavOk then
          ⟨total', decide (0 < total'), dls ++ [.budgetRestart], .renavFailed⟩
        else if !e.hasNext then
          ⟨total', decide (0 < total'), dls ++ [.budgetRestart], .noMorePages⟩
        else
          RunOut.prepend (dls ++ [.budgetRestart]) (download_all_pages rest 0 total')
      else if !e.hasNext then
        ⟨total', decide (0 < total'), dls, .noMorePages⟩
      else
        RunOut.prepend dls (download_all_pages rest (dc + k) total')

/-- Checker for the session-budget discipline over an event trace: `c`
counts the downloads recorded since the last budget restart (or since the
start of the run); every budget restart must find at least `n` of them and
resets the count. -/
def budgetGapsOK (n : Nat) : List Ev → Nat → Bool
  | [], _ => true
  | .download :: rest, c => budgetGapsOK n rest (c + 1)
  | .healthRestart :: rest, c => budgetGapsOK n rest c
  | .budgetRestart :: rest, c => decide (n ≤ c) && budgetGapsOK n rest 0

/-- Modelled from the claim's words: the event trace the Session Budget
Tracker of the claim would produce for `k` consecutive completed downloads
starting from counter value `c` — the session restarts immediately after
the download on which the counter reaches the threshold (5), and the
counter resets to zero. -/
def claimDownloadEvents : Nat → Nat → List Ev
  | 0, _ => []
  | k + 1, c =>
    Ev.download ::
      (if 5 ≤ c + 1 then Ev.budgetRestart :: claimDownloadEvents k 0
       else claimDownloadEvents k (c + 1))

/-! ## Concrete instances for counterexamples and witnesses -/

/-- A harvest-loop observation: healthy driver, no located items, pager
reports no further page. -/
def pageEmpty : PageEnv :=
  ⟨true, true, true, [], true, true, false⟩

/-- A harvest-loop observation: healthy driver, six located items all of
whose downloads complete, pager reports no further page. -/
def pageSix : PageEnv :=
  ⟨true, true, true, [true, true, true, true, true, true], true, true, false⟩

/-- Name-resolution environment where the mapping file is absent and the
quote request raises a `requests` exception. -/
def envNetFail : NameEnv := ⟨.missing, .requestError "timeout"⟩

/-- Name-resolution environment where the mapping file is absent and the
lookup raises a generic (non-`requests`) exception. -/
def envOtherFail : NameEnv := ⟨.missing, .otherError "boom"⟩

/-- An unrelated user browser process, not spawned by this controller. -/
def userChromeProc : OsProc :=
  ⟨"/usr/bin/google-chrome --profile-directory=Default", false⟩

/-- A page link whose text contains the marker phrase and whose reference
matches the detail path, scoped to stock code 600000. -/
def wLink : RawLink :=
  ⟨"关于投资者关系活动记录表的公告",
    some "https://www.cninfo.com.cn/new/disclosure/detail?stockCode=600000&announcementId=1"⟩

/-- A filesystem on which `wLink`'s derived save path holds a complete
output file. -/
def wFs : String → Option Nat :=
  fun p => if p == "d/关于投资者关系活动记录表的公告.pdf" then some 20480 else none

/-! ## Helper lemmas -/

/-- Splitting at a separator that occurs in neither right-hand part is
unambiguous. -/
theorem append_sep_split {α : Type} (sep : α) :
    ∀ (a a' b b' : List α), sep ∉ b → sep ∉ b' →
      a ++ sep :: b = a' ++ sep :: b' → a = a' ∧ b = b'
  | [], [], b, b', _, _, h => by simpa using h
  | [], x :: xs, b, b', hb, _, h => by
    simp only [List.nil_append, List.cons_append, List.cons.injEq] at h
    exact absurd (h.2 ▸ List.mem_append_right xs (List.mem_cons_self sep b'))
      (h.1 ▸ hb)
  | x :: xs, [], b, b', _, hb', h => by
    simp only [List.nil_append, List.cons_append, List.cons.injEq] at h
    exact absurd (h.2.symm ▸ List.mem_append_right xs (List.mem_cons_self sep b))
      (h.1.symm ▸ hb')
  | x :: xs, y :: ys, b, b', hb, hb', h => by
    simp only [List.cons_append, List.cons.injEq] at h
    have ih := append_sep_split sep xs ys b b' hb hb' h.2
    exact ⟨by rw [h.1, ih.1], ih.2⟩

/-- Sanitizing a string free of illegal characters is the identity. -/
theorem map_cleanChar_of_noIllegal :
    ∀ (l : List Char), l.all (fun c => !illegalChars.contains c) = true →
      l.map cleanChar = l
  | [], _ => rfl
  | c :: cs, h => by
    simp only [List.all_cons, Bool.and_eq_true, Bool.not_eq_true'] at h
    simp only [List.map_cons, map_cleanChar_of_noIllegal cs h.2, cleanChar, h.1,
      Bool.false_eq_true, if_false]

/-- The output of `cleanChar` is never an illegal character. -/
theorem cleanChar_not_illegal (c : Char) :
    illegalChars.contains (cleanChar c) = false := by
  unfold cleanChar
  by_cases h : illegalChars.contains c = true
  · rw [if_pos h]; decide
  · rw [if_neg h]; exact Bool.eq_false_iff.mpr h

/-- Every character of a sanitized string avoids the illegal set. -/
theorem map_cleanChar_all (l : List Char) :
    (l.map cleanChar).all (fun c => !illegalChars.contains c) = true := by
  rw [List.all_eq_true]
  intro x hx
  rcases List.mem_map.mp hx with ⟨c, _, rfl⟩
  simp only [Bool.not_eq_true']
  exact cleanChar_not_illegal c

/-- Strings with equal character data are equal. -/
theorem string_data_inj {a b : String} (h : a.data = b.data) : a = b := by
  cases a; cases b; exact congrArg String.mk h

/-- Sanitizing a string free of illegal characters returns it unchanged. -/
theorem clean_filename_of_noIllegal (s : String) (h : noIllegal s = true) :
    clean_filename s = s := by
  unfold clean_filename
  rw [map_cleanChar_of_noIllegal s.data h]

/-- The separator never occurs to its right in a derived save path whose
text component is free of illegal characters. -/
theorem slash_not_mem_right (t : String) (ht : noIllegal t = true) :
    ('/' : Char) ∉ t.data ++ ['.', 'p', 'd', 'f'] := by
  intro hmem
  rcases List.mem_append.mp hmem with h | h
  · exact absurd (List.all_eq_true.mp ht '/' h) (by decide)
  · exact absurd h (by decide)

/-- C5: the filename sanitizer is deterministic (it is a pure function of
its input), its output contains no character from the illegal set
`\\ / : * ? " < > |`, distinct inputs free of illegal characters sanitize
to distinct outputs, and the derived save path is an injective function of
the entity directory and the sanitized item text on such inputs. -/
theorem clean_filename_spec (s s₁ s₂ d₁ d₂ t₁ t₂ : String) :
    (clean_filename s).data.all (fun c => !illegalChars.contains c) = true
    ∧ (noIllegal s₁ = true → noIllegal s₂ = true → s₁ ≠ s₂ →
        clean_filename s₁ ≠ clean_filename s₂)
    ∧ (noIllegal t₁ = true → noIllegal t₂ = true →
        save_path_of d₁ t₁ = save_path_of d₂ t₂ → d₁ = d₂ ∧ t₁ = t₂) := by
  refine ⟨map_cleanChar_all s.data, ?_, ?_⟩
  · intro h1 h2 hne heq
    rw [clean_filename_of_noIllegal s₁ h1, clean_filename_of_noIllegal s₂ h2] at heq
    exact hne heq
  · intro h1 h2 heq
    unfold save_path_of joinPath at heq
    rw [clean_filename_of_noIllegal t₁ h1, clean_filename_of_noIllegal t₂ h2] at heq
    have hd := congrArg String.data heq
    simp only [String.data_append] at hd
    rw [List.append_assoc, List.append_assoc, List.singleton_append,
      List.singleton_append] at hd
    have hsplit := append_sep_split '/' d₁.data d₂.data
      (t₁.data ++ ['.', 'p', 'd', 'f']) (t₂.data ++ ['.', 'p', 'd', 'f'])
      (slash_not_mem_right t₁ h1) (slash_not_mem_right t₂ h2) hd
    have hts := (List.append_inj' hsplit.2 rfl).1
    exact ⟨string_data_inj hsplit.1, string_data_inj hts⟩

/-- Witness for C5 at concrete inputs: two distinct sanitized texts give
distinct filenames, and equal save paths force equal components. -/
theorem clean_filename_spec_witness :
    clean_filename "调研活动1" ≠ clean_filename "调研活动2"
    ∧ (("d" : String) = "d" ∧ ("t" : String) = "t") :=
  ⟨(clean_filename_spec "x" "调研活动1" "调研活动2" "d" "d" "t" "t").2.1
      (by decide) (by decide) (by decide),
    (clean_filename_spec "x" "调研活动1" "调研活动2" "d" "d" "t" "t").2.2
      (by decide) (by decide) rfl⟩

/-- The scan of one poll reports success exactly when some new file is an
oversized `.pdf`. -/
theorem scanNewFiles_fst (l : List (String × Nat)) :
    (scanNewFiles l).1 = l.any (fun f => isPdfName f.1 && decide (10 * 1024 < f.2)) := by
  induction l with
  | nil => rfl
  | cons f rest ih =>
    obtain ⟨n, sz⟩ := f
    by_cases h1 : isPdfName n = true
    · by_cases h2 : 10 * 1024 < sz
      · simp [scanNewFiles, h1, h2]
      · simp [scanNewFiles, h1, h2, ih]
    · simp [scanNewFiles, Bool.eq_false_iff.mpr h1, ih]

/-- The scan of one poll deletes exactly the new `.pdf` files encountered
before the first oversized one (all of them when none is oversized). -/
theorem scanNewFiles_snd (l : List (String × Nat)) :
    (scanNewFiles l).2 =
      ((l.takeWhile (fun f => !(isPdfName f.1 && decide (10 * 1024 < f.2)))).filter
        (fun f => isPdfName f.1)).map Prod.fst := by
  induction l with
  | nil => rfl
  | cons f rest ih =>
    obtain ⟨n, sz⟩ := f
    by_cases h1 : isPdfName n = true
    · by_cases h2 : 10 * 1024 < sz
      · simp [scanNewFiles, h1, h2, List.takeWhile_cons]
      · simp [scanNewFiles, h1, h2, List.takeWhile_cons, ih]
    · simp [scanNewFiles, Bool.eq_false_iff.mpr h1, List.takeWhile_cons, ih]

/-- One poll succeeds exactly when an oversized new `.pdf` appears or the
target path already holds an oversized file. -/
theorem pollOnce_eq (before : List String) (obs : FsObs) :
    pollOnce before obs = (hasBigNewPdf before obs || targetComplete obs) := by
  unfold pollOnce hasBigNewPdf
  rw [← scanNewFiles_fst]
  cases hs : (scanNewFiles (newFilesOf before obs)).1 <;> simp [hs]

/-- C3: the completion detector never reports success on account of a file
of at most 10 * 1024 bytes.  The whole wait succeeds exactly when some poll
does; one poll succeeds exactly when a new file with the `.pdf` extension
strictly exceeds the threshold or the target path already does (so success
never stems from an undersized file); and each poll deletes precisely the
undersized new `.pdf` files it scans (all of them when no oversized one
appears, after which polling continues).  `wait_for_download` returns
`false` exactly when every poll up to the timeout fails. -/
theorem wait_for_download_spec (before : List String) (obss : List FsObs) :
    wait_for_download before obss = obss.any (pollOnce before)
    ∧ (∀ obs : FsObs, pollOnce before obs
        = (hasBigNewPdf before obs || targetComplete obs))
    ∧ (∀ obs : FsObs, pollDeleted before obs =
        (((newFilesOf before obs).takeWhile
            (fun f => !(isPdfName f.1 && decide (10 * 1024 < f.2)))).filter
          (fun f => isPdfName f.1)).map Prod.fst) := by
  refine ⟨?_, pollOnce_eq before, fun obs => scanNewFiles_snd _⟩
  induction obss with
  | nil => rfl
  | cons obs rest ih =>
    unfold wait_for_download
    cases h : pollOnce before obs <;> simp [h, ih]

/-- The nonemptiness tests of the link filter are redundant: for a link
with a present href, the source's five-fold condition coincides with the
three containment conditions of the spec (the marker and path fragments are
themselves nonempty, so containment forces nonemptiness). -/
theorem link_cond_eq_qualifies (code : String) (l : RawLink) (h : String)
    (hh : l.href = some h) :
    ((pyStrip l.text != "") && strContains marker (pyStrip l.text) && (h != "")
        && strContains detailPath h && strContains ("stockCode=" ++ code) h)
      = qualifies code l := by
  unfold qualifies
  rw [hh]
  by_cases h1 : pyStrip l.text = ""
  · rw [h1]
    have hm : strContains marker "" = false := by decide
    simp [hm]
  · by_cases h2 : h = ""
    · subst h2
      have hd : strContains detailPath "" = false := by decide
      simp [hd]
    · have ht : (pyStrip l.text != "") = true := bne_iff_ne.mpr h1
      have ht2 : (h != "") = true := bne_iff_ne.mpr h2
      simp [ht, ht2]

/-- The link scan is the filter of the qualification-and-incompleteness
test followed by the projection to `DetailInfo`. -/
theorem find_eq_filter_map (code dir : String) (fs : String → Option Nat) :
    ∀ links : List RawLink,
      find_download_links links code dir fs
        = (links.filter (fun l => qualifies code l
            && !fileComplete fs (save_path_of dir (pyStrip l.text)))).map (infoOf dir)
  | [] => rfl
  | l :: rest => by
    rw [find_download_links]
    cases hh : l.href with
    | none =>
      have hq : qualifies code l = false := by unfold qualifies; rw [hh]
      simp [List.filter_cons, hq, find_eq_filter_map code dir fs rest]
    | some h =>
      dsimp only
      have e : joinPath dir (clean_filename (pyStrip l.text) ++ ".pdf")
          = save_path_of dir (pyStrip l.text) := rfl
      rw [link_cond_eq_qualifies code l h hh, e, List.filter_cons]
      by_cases hq : qualifies code l = true
      · by_cases hf : fileComplete fs (save_path_of dir (pyStrip l.text)) = true
        · rw [if_pos hq, if_pos hf]
          simp [hq, hf, find_eq_filter_map code dir fs rest]
        · rw [if_pos hq, if_neg hf]
          have hf' := Bool.eq_false_iff.mpr hf
          simp only [hq, hf', Bool.not_false, Bool.and_true, if_true,
            List.map_cons, find_eq_filter_map code dir fs rest]
          refine congrArg (fun i => i :: _) ?_
          unfold infoOf
          rw [hh]
          rfl
      · rw [if_neg hq]
        simp [Bool.eq_false_iff.mpr hq, find_eq_filter_map code dir fs rest]

/-- C4: `_find_download_links` returns exactly the links satisfying the
three conditions (marker phrase in the visible text, detail-page path in
the reference, `stockCode=<code>` in the reference), in page order, except
that a qualifying link whose derived save path already holds a file larger
than 10 * 1024 bytes is omitted; consequently an item whose output file is
already complete is never re-attempted on a second scan of an unchanged
listing. -/
theorem find_download_links_spec (links : List RawLink) (code dir : String)
    (fs : String → Option Nat) :
    find_download_links links code dir fs
      = (links.filter (fun l => qualifies code l
          && !fileComplete fs (save_path_of dir (pyStrip l.text)))).map (infoOf dir)
    ∧ ∀ l ∈ links, fileComplete fs (save_path_of dir (pyStrip l.text)) = true →
        infoOf dir l ∉ find_download_links links code dir fs := by
  refine ⟨find_eq_filter_map code dir fs links, ?_⟩
  intro l _ hcomp hmem
  rw [find_eq_filter_map code dir fs links] at hmem
  rcases List.mem_map.mp hmem with ⟨l', hl', heq⟩
  have hq := (List.mem_filter.mp hl').2
  have hsp : save_path_of dir (pyStrip l'.text) = save_path_of dir (pyStrip l.text) :=
    congrArg DetailInfo.savePath heq
  rw [Bool.and_eq_true, Bool.not_eq_true', hsp] at hq
  exact absurd hcomp (hq.2 ▸ Bool.false_ne_true)

/-- Witness for C4: a qualifying link whose output file is already complete
is omitted from the scan result. -/
theorem find_download_links_spec_witness :
    infoOf "d" wLink ∉ find_download_links [wLink] "600000" "d" wFs :=
  (find_download_links_spec [wLink] "600000" "d" wFs).2 wLink
    (List.mem_singleton.mpr rfl) (by decide)

/-- C6: `_go_to_next_page` tries the three strategies in the fixed priority
order — the clicked control is the first actionable one — returns `true`
exactly when some strategy finds a present, enabled control, and returns
`false` only when none of the three does; when the pager reports `false`
on a healthy iteration the harvest loop terminates normally (reason
`noMorePages`, not an error exit), without consuming further trace. -/
theorem go_to_next_page_spec (p : PagerPage) (e : PageEnv) (rest : List PageEnv)
    (dc total : Nat)
    (hh : e.healthy = true) (hn : e.hasNext = false)
    (hb : 5 ≤ dc + e.items.count true →
      e.budgetRestartOk = true ∧ e.budgetRenavOk = true) :
    go_to_next_page p = (tryNextButton p || tryArrowButton p || tryQuickNext p)
    ∧ clickedControl p = (actionableStrategies p).head?
    ∧ go_to_next_page p = (clickedControl p).isSome
    ∧ (download_all_pages (e :: rest) dc total).reason = ExitReason.noMorePages
    ∧ download_all_pages (e :: rest) dc total = download_all_pages [e] dc total := by
  have hmain : (download_all_pages (e :: rest) dc total).reason = ExitReason.noMorePages
      ∧ download_all_pages (e :: rest) dc total = download_all_pages [e] dc total := by
    by_cases h5 : 5 ≤ dc + e.items.count true
    · obtain ⟨hbr, hbn⟩ := hb h5
      constructor <;> simp [download_all_pages, hh, hn, h5, hbr, hbn]
    · constructor <;> simp [download_all_pages, hh, hn, h5]
  refine ⟨?_, ?_, ?_, hmain.1, hmain.2⟩ <;>
    cases h1 : tryNextButton p <;> cases h2 : tryArrowButton p <;>
      cases h3 : tryQuickNext p <;>
    simp [go_to_next_page, clickedControl, actionableStrategies, h1, h2, h3]

/-- Witness for C6: a page whose only actionable control is the arrow-icon
strategy advances, and the empty-page run ends with the normal
no-more-pages exit. -/
theorem go_to_next_page_spec_witness :
    go_to_next_page ⟨none, some true, none⟩ = true
    ∧ (download_all_pages [pageEmpty] 0 0).reason = ExitReason.noMorePages := by
  have h := go_to_next_page_spec ⟨none, some true, none⟩ pageEmpty [] 0 0 rfl rfl
    (fun h5 => absurd h5 (by decide))
  exact ⟨by rw [h.1]; decide, h.2.2.2.1⟩

theorem RunOut.prepend_total (evs : List Ev) (r : RunOut) :
    (RunOut.prepend evs r).total = r.total := rfl

theorem RunOut.prepend_success (evs : List Ev) (r : RunOut) :
    (RunOut.prepend evs r).success = r.success := rfl

theorem RunOut.prepend_events (evs : List Ev) (r : RunOut) :
    (RunOut.prepend evs r).events = evs ++ r.events := rfl

/-- Every exit path of the harvest loop reports success exactly when the
accumulated download count is positive. -/
theorem download_all_pages_success_eq :
    ∀ (envs : List PageEnv) (dc total : Nat),
      (download_all_pages envs dc total).success
        = decide (0 < (download_all_pages envs dc total).total)
  | [], _, _ => rfl
  | e :: rest, dc, total => by
    simp only [download_all_pages]
    repeat' split
    all_goals
      simp [RunOut.prepend_success, RunOut.prepend_total,
        download_all_pages_success_eq rest]

/-- A run all of whose page scans locate no items downloads nothing. -/
theorem download_all_pages_total_of_no_items :
    ∀ (envs : List PageEnv) (dc total : Nat),
      (∀ e ∈ envs, e.items = ([] : List Bool)) →
      (download_all_pages envs dc total).total = total
  | [], _, _, _ => rfl
  | e :: rest, dc, total, h => by
    have he : e.items = [] := h e (List.mem_cons_self e rest)
    have hr := fun dc' => download_all_pages_total_of_no_items rest dc' total
      (fun x hx => h x (List.mem_cons_of_mem e hx))
    simp only [download_all_pages, he]
    repeat' split
    all_goals simp [RunOut.prepend_total, hr]

/-- C1 amended: on every exit path — trace end, restart failure,
re-navigation failure, or normal pagination exhaustion — the harvest run
reports success exactly when `total_downloaded > 0`; a run in which every
page scan returns an empty item list downloads nothing and therefore
reports failure.  There is no separate success-with-nothing-to-do
outcome. -/
theorem download_all_pages_outcome (envs : List PageEnv) (dc total : Nat) :
    (download_all_pages envs dc total).success
      = decide (0 < (download_all_pages envs dc total).total)
    ∧ ((∀ e ∈ envs, e.items = ([] : List Bool)) →
        (download_all_pages envs dc total).total = total) :=
  ⟨download_all_pages_success_eq envs dc total,
    download_all_pages_total_of_no_items envs dc total⟩

/-- Witness for C1 at a concrete run: a single page with an empty item
list yields zero downloads and a failure report. -/
theorem download_all_pages_outcome_witness :
    (download_all_pages [pageEmpty] 0 0).total = 0
    ∧ (download_all_pages [pageEmpty] 0 0).success = false := by
  have h := download_all_pages_outcome [pageEmpty] 0 0
  have ht : (download_all_pages [pageEmpty] 0 0).total = 0 := h.2 (by decide)
  exact ⟨ht, by rw [h.1, ht]; rfl⟩

/-- Counterexample to C1 as stated: a run in which every page scan returns
an empty item list is reported as a failure (`False`), not as a
success-with-nothing-to-do. -/
theorem download_all_pages_empty_scan_failure :
    pageEmpty.items = ([] : List Bool)
    ∧ (download_all_pages [pageEmpty] 0 0).total = 0
    ∧ (download_all_pages [pageEmpty] 0 0).success = false := by decide

/-- The budget checker steps through a block of downloads by adding them to
the running count. -/
theorem budgetGapsOK_append_replicate (n : Nat) (rest : List Ev) :
    ∀ (k c : Nat),
      budgetGapsOK n (List.replicate k Ev.download ++ rest) c
        = budgetGapsOK n rest (c + k)
  | 0, c => rfl
  | k + 1, c => by
    rw [List.replicate_succ, List.cons_append]
    show budgetGapsOK n (List.replicate k Ev.download ++ rest) (c + 1)
      = budgetGapsOK n rest (c + (k + 1))
    rw [budgetGapsOK_append_replicate n rest k (c + 1)]
    have : c + 1 + k = c + (k + 1) := by omega
    rw [this]

/-- The budget checker ignores health restarts. -/
theorem budgetGapsOK_health_cons (n c : Nat) (rest : List Ev) :
    budgetGapsOK n (Ev.healthRestart :: rest) c = budgetGapsOK n rest c := rfl

/-- The budget checker is indifferent to the health-restart prefix of an
iteration's events. -/
theorem budgetGapsOK_pre (n c : Nat) (b : Bool) (rest : List Ev) :
    budgetGapsOK n ((if b then ([] : List Ev) else [Ev.healthRestart]) ++ rest) c
      = budgetGapsOK n rest c := by
  cases b <;> rfl

/-- A block of downloads alone always satisfies the budget checker. -/
theorem budgetGapsOK_replicate (n k c : Nat) :
    budgetGapsOK n (List.replicate k Ev.download) c = true := by
  have h := budgetGapsOK_append_replicate n [] k c
  rw [List.append_nil] at h
  rw [h]
  rfl

/-- Every budget restart in a harvest run's event trace is preceded by at
least five downloads recorded since the previous budget restart (the
parameter `dc` being the count already recorded on entry). -/
theorem download_all_pages_budget_gaps :
    ∀ (envs : List PageEnv) (dc total : Nat),
      budgetGapsOK 5 (download_all_pages envs dc total).events dc = true
  | [], _, _ => rfl
  | e :: rest, dc, total => by
    have ih := fun dc' total' => download_all_pages_budget_gaps rest dc' total'
    simp only [download_all_pages]
    repeat' split
    all_goals
      simp_all [RunOut.prepend_events, List.append_assoc, budgetGapsOK_pre,
        budgetGapsOK_append_replicate, budgetGapsOK_replicate, budgetGapsOK]

/-- On a healthy iteration with a working budget restart, the events of a
single-page run are the page's downloads followed by one budget restart
exactly when the counter crosses the threshold. -/
theorem single_page_events (e : PageEnv) (dc total : Nat)
    (hh : e.healthy = true) (hbr : e.budgetRestartOk = true) :
    (download_all_pages [e] dc total).events
      = List.replicate (e.items.count true) Ev.download
        ++ (if 5 ≤ dc + e.items.count true then [Ev.budgetRestart] else []) := by
  have h1 : (!e.healthy && !e.restartOk) = false := by rw [hh]; rfl
  have h2 : (!e.healthy && !e.renavOk) = false := by rw [hh]; rfl
  rw [download_all_pages, h1, h2]
  simp only [Bool.false_eq_true, if_false, hh, if_true, List.nil_append]
  by_cases h5 : 5 ≤ dc + e.items.count true
  · rw [if_pos h5, if_pos h5]
    rw [hbr]
    simp only [Bool.not_true, Bool.false_eq_true, if_false]
    cases hbn : e.budgetRenavOk
    · rfl
    · simp only [Bool.not_false, Bool.not_true, Bool.false_eq_true, if_false, if_true]
      cases hnx : e.hasNext
      · rfl
      · simp [download_all_pages, RunOut.prepend_events]
  · rw [if_neg h5, if_neg h5, List.append_nil]
    cases hnx : e.hasNext
    · rfl
    · simp [download_all_pages, RunOut.prepend_events]

/-- C2 amended: `self.download_count` is incremented once per completed
download, but the threshold comparison against
`max_downloads_per_session = 5` runs once per page iteration, after all of
the page's downloads; when it fires, the session restarts exactly once and
the counter resets to zero, so every budget restart is separated from the
previous one (and from the start of the run) by at least five recorded
downloads, and on a healthy single-page iteration a budget restart occurs
exactly when the counter reaches the threshold at the page boundary. -/
theorem session_budget_spec (envs : List PageEnv) (e : PageEnv)
    (dc dc' total total' : Nat) :
    budgetGapsOK 5 (download_all_pages envs dc total).events dc = true
    ∧ (e.healthy = true → e.budgetRestartOk = true →
        (Ev.budgetRestart ∈ (download_all_pages [e] dc' total').events
          ↔ 5 ≤ dc' + e.items.count true)) := by
  refine ⟨download_all_pages_budget_gaps envs dc total, ?_⟩
  intro hh hbr
  rw [single_page_events e dc' total' hh hbr]
  by_cases h5 : 5 ≤ dc' + e.items.count true
  · simp [h5, List.mem_replicate]
  · simp [h5, List.mem_replicate]

/-- Witness for C2 at a concrete run: six completed downloads on one page
cross the threshold and trigger the budget restart. -/
theorem session_budget_spec_witness :
    Ev.budgetRestart ∈ (download_all_pages [pageSix] 0 0).events :=
  ((session_budget_spec [] pageSix 0 0 0 0).2 rfl rfl).mpr (by decide)

/-- Counterexample to C2 as stated: with six completed downloads on one
page, the code's trace performs all six downloads and then one budget
restart at the page boundary, whereas the claim's immediate-restart
discipline would restart right after the fifth download; the traces
differ. -/
theorem session_budget_counterexample :
    (download_all_pages [pageSix] 0 0).events
      = [Ev.download, Ev.download, Ev.download, Ev.download, Ev.download,
          Ev.download, Ev.budgetRestart]
    ∧ claimDownloadEvents 6 0
      = [Ev.download, Ev.download, Ev.download, Ev.download, Ev.download,
          Ev.budgetRestart, Ev.download]
    ∧ (download_all_pages [pageSix] 0 0).events ≠ claimDownloadEvents 6 0 := by
  decide

/-- The replay loop makes at most `fuel` further pager calls. -/
theorem navLoop_le (advance : Nat → Bool) :
    ∀ (fuel calls : Nat), navLoop advance fuel calls ≤ calls + fuel
  | 0, calls => Nat.le_refl calls
  | fuel + 1, calls => by
    rw [navLoop]
    by_cases h : advance calls = true
    · rw [if_pos h]
      have := navLoop_le advance fuel (calls + 1)
      omega
    · rw [if_neg h]
      omega

/-- When every remaining pager call succeeds, the replay loop exhausts its
fuel. -/
theorem navLoop_all_true (advance : Nat → Bool) :
    ∀ (fuel calls : Nat), (∀ i, calls ≤ i → i < calls + fuel → advance i = true) →
      navLoop advance fuel calls = calls + fuel
  | 0, calls, _ => rfl
  | fuel + 1, calls, h => by
    rw [navLoop, if_pos (h calls (Nat.le_refl calls) (by omega))]
    rw [navLoop_all_true advance fuel (calls + 1) (fun i hi hi2 => h i (by omega) (by omega))]
    omega

/-- When the first failing pager call lies within the remaining fuel, the
replay loop stops right after it, counting that call. -/
theorem navLoop_first_false (advance : Nat → Bool) :
    ∀ (fuel calls k : Nat), calls ≤ k → k < calls + fuel → advance k = false →
      (∀ i, calls ≤ i → i < k → advance i = true) →
      navLoop advance fuel calls = k + 1
  | 0, calls, k, hck, hkf, _, _ => absurd hkf (by omega)
  | fuel + 1, calls, k, hck, hkf, hk, h => by
    by_cases hek : calls = k
    · rw [navLoop, hek, if_neg (by rw [hk]; exact Bool.false_ne_true)]
    · have hlt : calls < k := Nat.lt_of_le_of_ne hck hek
      rw [navLoop, if_pos (h calls (Nat.le_refl calls) hlt)]
      exact navLoop_first_false advance fuel (calls + 1) k (by omega) (by omega) hk
        (fun i hi hi2 => h i (by omega) hi2)

/-- C7 amended: after a forced restart with current page number `target`,
`_navigate_to_page` calls the Pager's advance at most `target - 1` times,
and the call on which an advance first reports no further page is itself
counted before the loop breaks: when the first `target - 1` advance results
are all successes (in particular when every advance succeeds) exactly
`target - 1` calls are made, and when the (k+1)-th advance is the first to
report no further page with `k < target - 1`, exactly `k + 1` calls are
made. -/
theorem navigate_to_page_calls_spec (advance : Nat → Bool) (target k : Nat) :
    navigate_to_page_calls advance target ≤ target - 1
    ∧ ((∀ i, i < target - 1 → advance i = true) →
        navigate_to_page_calls advance target = target - 1)
    ∧ (k < target - 1 → advance k = false → (∀ i, i < k → advance i = true) →
        navigate_to_page_calls advance target = k + 1) := by
  refine ⟨?_, ?_, ?_⟩
  · have := navLoop_le advance (target - 1) 0
    simpa using this
  · intro h
    have := navLoop_all_true advance (target - 1) 0 (fun i _ hi2 => h i (by omega))
    simpa using this
  · intro hk hf h
    exact navLoop_first_false advance (target - 1) 0 k (Nat.zero_le k) (by omega) hf
      (fun i _ hi2 => h i hi2)

/-- Witness for C7 at concrete runs: with an always-successful pager and
target page 4, exactly three advance calls are made; with a pager whose
second advance is the first to fail, exactly two calls are made. -/
theorem navigate_to_page_calls_spec_witness :
    navigate_to_page_calls (fun _ => true) 4 = 3
    ∧ navigate_to_page_calls (fun i => decide (i < 1)) 4 = 2 :=
  ⟨(navigate_to_page_calls_spec (fun _ => true) 4 0).2.1 (fun _ _ => rfl),
    (navigate_to_page_calls_spec (fun i => decide (i < 1)) 4 1).2.2 (by omega) rfl
      (fun i hi => decide_eq_true hi)⟩

/-- Counterexample to C7 as stated: with target page 3 the claim demands
exactly two advance calls, but when the first call reports no further page
the loop breaks after a single call. -/
theorem navigate_to_page_counterexample :
    navigate_to_page_calls (fun _ => false) 3 = 1 ∧ (1 : Nat) ≠ 3 - 1 := by
  decide

/-- C8 amended: the output subdirectory falls back to the raw stock code
exactly when the resolved name is empty or starts with `错误` or `网络`;
the resolver's input-validation and code-not-found failures (`错误：…`) and
its request failures (`网络请求失败：…`) are caught by that test, but its
generic-exception failures (`发生错误：…`) are not, and such an error
message becomes the (sanitized) directory name. -/
theorem stock_dir_name_spec (code msg : String) (env : NameEnv) :
    (nameFallbackCheck (get_stock_name code env).result = true →
        stock_dir_name code env = clean_filename code)
    ∧ (nameFallbackCheck (get_stock_name code env).result = false →
        stock_dir_name code env = clean_filename (get_stock_name code env).result)
    ∧ nameFallbackCheck ("错误：" ++ msg) = true
    ∧ nameFallbackCheck ("网络请求失败：" ++ msg) = true
    ∧ nameFallbackCheck ("发生错误：" ++ msg) = false := by
  refine ⟨?_, ?_, rfl, rfl, rfl⟩
  · intro h
    unfold stock_dir_name
    simp [h]
  · intro h
    unfold stock_dir_name
    simp [h]

/-- Witness for C8 at concrete inputs: a request failure falls back to the
raw code, while the generic-exception shape escapes the fallback test. -/
theorem stock_dir_name_spec_witness :
    stock_dir_name "600000" envNetFail = clean_filename "600000"
    ∧ nameFallbackCheck ("发生错误：" ++ "x") = false := by
  have h := stock_dir_name_spec "600000" "x" envNetFail
  exact ⟨h.1 (by decide), h.2.2.2.2⟩

/-- Counterexample to C8 as stated: when the name lookup fails with a
generic exception, `get_stock_name` returns the error message
`发生错误：boom`, and the output subdirectory is named from that error
message rather than from the raw stock code. -/
theorem stock_dir_from_error_message :
    (get_stock_name "600000" envOtherFail).result = "发生错误：boom"
    ∧ stock_dir_name "600000" envOtherFail = "发生错误：boom"
    ∧ stock_dir_name "600000" envOtherFail ≠ "600000" := by
  decide

/-- C9 amended: the pre-acquire cleanup terminates exactly the processes
whose command line matches the browser name pattern, irrespective of
whether this controller spawned them; a process survives the sweep iff it
does not match, so matching processes not spawned by the controller are
terminated too. -/
theorem cleanup_chrome_processes_spec (procs : List OsProc) (p : OsProc) :
    (p ∈ cleanup_chrome_processes procs
      ↔ p ∈ procs ∧ matchesCleanupPattern p = false)
    ∧ (p ∈ procs → matchesCleanupPattern p = true →
        p ∉ cleanup_chrome_processes procs) := by
  constructor
  · unfold cleanup_chrome_processes
    rw [List.mem_filter]
    simp [Bool.not_eq_true']
  · intro hp hm hmem
    unfold cleanup_chrome_processes at hmem
    have hs := (List.mem_filter.mp hmem).2
    rw [hm] at hs
    exact absurd hs (by decide)

/-- Witness for C9: a matching process is removed by the sweep. -/
theorem cleanup_chrome_processes_spec_witness :
    userChromeProc ∉ cleanup_chrome_processes [userChromeProc] :=
  (cleanup_chrome_processes_spec [userChromeProc] userChromeProc).2
    (List.mem_singleton.mpr rfl) (by decide)

/-- Counterexample to C9 as stated: an unrelated user browser process, not
spawned by this controller, matches the name pattern and is terminated by
the cleanup. -/
theorem cleanup_kills_unrelated_counterexample :
    userChromeProc.spawnedByThisController = false
    ∧ matchesCleanupPattern userChromeProc = true
    ∧ cleanup_chrome_processes [userChromeProc] = [] := by
  decide

/-- C10 amended: for every input over the modelled character classes whose
stripped form fails the source's validation (`code.isdigit()` — Python's
digit test, which also accepts some non-decimal digit characters — and
length six), `get_stock_name` returns the fixed error string without
consulting the mapping file or the network. -/
theorem get_stock_name_validation (input : String) (env : NameEnv)
    (hmod : input.data.all modelledChar = true)
    (hbad : validStockInput (pyStrip input) = false) :
    get_stock_name input env = ⟨errBadInput, false, false⟩ := by
  have hcond : (!(pyIsDigitStr (pyStrip input)) || (pyStrip input).length != 6)
      = true := by
    unfold validStockInput at hbad
    cases ha : pyIsDigitStr (pyStrip input) <;>
      cases hb : ((pyStrip input).length == 6) <;> simp_all [bne]
  unfold get_stock_name
  simp [hcond]

/-- Witness for C10 at a concrete input: a non-digit input is rejected with
the fixed error and no external consultation. -/
theorem get_stock_name_validation_witness :
    get_stock_name "abc123" envNetFail = ⟨errBadInput, false, false⟩ :=
  get_stock_name_validation "abc123" envNetFail (by decide) (by decide)

/-- Counterexample to C10 as stated: the input `²²²²²²` (six superscript
digits) strips to six characters none of which is a decimal digit, yet
Python's `isdigit` accepts it, so the lookup proceeds to the network
instead of returning the fixed error. -/
theorem get_stock_name_superscript_counterexample :
    (pyStrip "²²²²²²").data.all isAsciiDigit = false
    ∧ (pyStrip "²²²²²²").data.length = 6
    ∧ (get_stock_name "²²²²²²" envNetFail).usedNetwork = true
    ∧ (get_stock_name "²²²²²²" envNetFail).result ≠ errBadInput := by
  decide

end StockInfo
